import Mathlib

/-!
Verification of the honeypot service (`src/baccccc.py`, a Flask decoy
server) against its natural-language specification.

The development is a shallow embedding of the program:

* external effects (the SQLite insert, the fallback-logfile append, the
  quarantine-directory creation, the quarantine `file.save`, the note
  append) are modelled by explicit state (`SinkState`, `FsState`) together
  with boolean environment flags that say whether each fallible operation
  succeeds; an operation whose failure the source catches with
  `try`/`except` is modelled by consulting its flag, while `os.makedirs`
  — which sits outside the upload handler's `try` — raises out of the
  handler on failure, modelled by an `Except.error` result that the
  framework dispatcher turns into its generic 500 page;
* request attributes are explicit fields of a `Request` structure; a
  headers object whose `.get` raises (the `except` branch of `save_event`
  and of the pre-request hook) is the `RawHeaders.malformed` constructor;
* library routines the source calls (`bytes.decode("utf-8", "replace")`,
  `json.dumps`, `werkzeug.utils.secure_filename`, decimal formatting of
  `int(time.time())`) are translated to executable Lean functions below.

Strings are processed as `List Char` where character-level work is needed
and as `String` elsewhere.
-/

namespace Honeypot

/-- Configuration constant `QUARANTINE_DIR` from the source. -/
def QUARANTINE_DIR : String := "quarantine"

/-- Configuration constant `UPLOAD_MAX_BYTES = 10 * 1024 * 1024` from the source. -/
def UPLOAD_MAX_BYTES : Nat := 10 * 1024 * 1024

/-- An incoming headers object.  `mk entries` is an ordinary mapping
(first matching key wins, as in a real header multidict); `malformed` is an
object on which attribute lookup raises, which the source guards against
with `try`/`except`. -/
inductive RawHeaders where
  | mk (entries : List (String × String))
  | malformed
deriving DecidableEq

/-- Python `headers.get(k, d)` on a well-formed mapping. -/
def hget (entries : List (String × String)) (k d : String) : String :=
  match entries.lookup k with
  | some v => v
  | none => d

/-- The `headers_dict` normalization in `save_event` (lines 40–48): keep
exactly the four recognized keys, defaulting each to `""`; if the lookup
raises, the `except` branch yields the empty dict. -/
def headersDict : RawHeaders → List (String × String)
  | RawHeaders.mk es =>
      [("User-Agent", hget es "User-Agent" ""),
       ("X-Forwarded-For", hget es "X-Forwarded-For" ""),
       ("Content-Type", hget es "Content-Type" ""),
       ("Accept", hget es "Accept" "")]
  | RawHeaders.malformed => []

/-- U+FFFD, the replacement character produced by `errors="replace"`. -/
def replChar : Char := Char.ofNat 0xFFFD

/-- Is `b` a UTF-8 continuation byte (`0x80 ≤ b ≤ 0xBF`)? -/
def isCont (b : Nat) : Bool := 0x80 ≤ b && b < 0xC0

/-- Admissible first continuation byte of a three-byte sequence headed by
`b` (excludes overlong encodings for `0xE0` and surrogates for `0xED`). -/
def cont1For3 (b c1 : Nat) : Bool :=
  if b = 0xE0 then 0xA0 ≤ c1 && c1 < 0xC0
  else if b = 0xED then 0x80 ≤ c1 && c1 < 0xA0
  else isCont c1

/-- Admissible first continuation byte of a four-byte sequence headed by
`b` (excludes overlong encodings for `0xF0` and values above U+10FFFF for
`0xF4`). -/
def cont1For4 (b c1 : Nat) : Bool :=
  if b = 0xF0 then 0x90 ≤ c1 && c1 < 0xC0
  else if b = 0xF4 then 0x80 ≤ c1 && c1 < 0x90
  else isCont c1

/-- Python `bytes.decode("utf-8", "replace")`: strict UTF-8 decoding where
every maximal subpart of an ill-formed sequence becomes one U+FFFD, and a
sequence truncated by the end of input becomes one U+FFFD. -/
def utf8DecodeReplace : List Nat → List Char
  | [] => []
  | b :: rest =>
    if b < 0x80 then Char.ofNat b :: utf8DecodeReplace rest
    else if b < 0xC2 then replChar :: utf8DecodeReplace rest
    else if b < 0xE0 then
      match rest with
      | [] => [replChar]
      | c1 :: r =>
        if isCont c1 then
          Char.ofNat (0x40 * (b - 0xC0) + (c1 - 0x80)) :: utf8DecodeReplace r
        else replChar :: utf8DecodeReplace (c1 :: r)
    else if b < 0xF0 then
      match rest with
      | [] => [replChar]
      | c1 :: r1 =>
        if cont1For3 b c1 then
          match r1 with
          | [] => [replChar]
          | c2 :: r =>
            if isCont c2 then
              Char.ofNat (0x1000 * (b - 0xE0) + 0x40 * (c1 - 0x80) + (c2 - 0x80)) ::
                utf8DecodeReplace r
            else replChar :: utf8DecodeReplace (c2 :: r)
        else replChar :: utf8DecodeReplace (c1 :: r1)
    else if b < 0xF5 then
      match rest with
      | [] => [replChar]
      | c1 :: r1 =>
        if cont1For4 b c1 then
          match r1 with
          | [] => [replChar]
          | c2 :: r2 =>
            if isCont c2 then
              match r2 with
              | [] => [replChar]
              | c3 :: r =>
                if isCont c3 then
                  Char.ofNat (0x40000 * (b - 0xF0) + 0x1000 * (c1 - 0x80) +
                      0x40 * (c2 - 0x80) + (c3 - 0x80)) :: utf8DecodeReplace r
                else replChar :: utf8DecodeReplace (c3 :: r)
            else replChar :: utf8DecodeReplace (c2 :: r2)
        else replChar :: utf8DecodeReplace (c1 :: r1)
    else replChar :: utf8DecodeReplace rest

/-- The `body` argument reaching `save_event`: a byte string, an arbitrary
value whose `str()` succeeds, or a value whose `str()` raises (the
`except` branch of lines 51–57). -/
inductive RawBody where
  | bytes (bs : List Nat)
  | text (s : String)
  | strFails
deriving DecidableEq

/-- The `body_text` computation of `save_event` (lines 51–57): bytes are
decoded as UTF-8 with replacement then truncated to 2000, other values are
stringified then truncated to 2000, and a raising `str()` yields `""`. -/
def bodyText : RawBody → String
  | RawBody.bytes bs => String.mk ((utf8DecodeReplace bs).take 2000)
  | RawBody.text s => String.mk (s.data.take 2000)
  | RawBody.strFails => ""

/-- Decimal digit character, as produced by Python string formatting of
an integer (the caller always passes a value already reduced mod 10). -/
def digitChar (d : Nat) : Char :=
  if d = 0 then '0' else if d = 1 then '1' else if d = 2 then '2'
  else if d = 3 then '3' else if d = 4 then '4' else if d = 5 then '5'
  else if d = 6 then '6' else if d = 7 then '7' else if d = 8 then '8'
  else '9'

/-- Accumulator pass of decimal formatting: peel off the least significant
digit and prepend its character.  The first argument is fuel bounding the
number of digits; since `n / 10 < n` for positive `n`, fuel `n` always
suffices and the fuel-exhausted branch is unreachable from `natChars`. -/
def natCharsAux : Nat → Nat → List Char → List Char
  | 0, _, acc => acc
  | fuel + 1, n, acc =>
    if n = 0 then acc else natCharsAux fuel (n / 10) (digitChar (n % 10) :: acc)

/-- Python `str(n)` for a natural number (decimal, no sign, `"0"` for 0),
as used by `f"{int(time.time())}_..."` in the upload handler. -/
def natChars (n : Nat) : List Char :=
  if n = 0 then ['0'] else natCharsAux n n []

/-- Lowercase hexadecimal digit character (argument already below 16). -/
def hexDigitChar (n : Nat) : Char :=
  if n < 10 then digitChar n
  else if n = 10 then 'a' else if n = 11 then 'b' else if n = 12 then 'c'
  else if n = 13 then 'd' else if n = 14 then 'e' else 'f'

/-- JSON `\uXXXX` escape of a code unit. -/
def uEscape (n : Nat) : List Char :=
  ['\\', 'u', hexDigitChar (n / 0x1000 % 16), hexDigitChar (n / 0x100 % 16),
   hexDigitChar (n / 0x10 % 16), hexDigitChar (n % 16)]

/-- Escaping of one character under `json.dumps` defaults (`ensure_ascii`
true): short escapes for the usual control characters, `\uXXXX` for every
other character outside `0x20`–`0x7E`, surrogate pairs above U+FFFF. -/
def jsonEscapeChar (c : Char) : List Char :=
  if c = '"' then ['\\', '"']
  else if c = '\\' then ['\\', '\\']
  else if c = '\x08' then ['\\', 'b']
  else if c = '\t' then ['\\', 't']
  else if c = '\n' then ['\\', 'n']
  else if c = '\x0c' then ['\\', 'f']
  else if c = '\r' then ['\\', 'r']
  else if 0x20 ≤ c.toNat && c.toNat ≤ 0x7E then [c]
  else if c.toNat ≤ 0xFFFF then uEscape c.toNat
  else uEscape (0xD800 + (c.toNat - 0x10000) / 0x400) ++
       uEscape (0xDC00 + (c.toNat - 0x10000) % 0x400)

/-- JSON string literal for `s` under `json.dumps` defaults. -/
def jsonStr (s : String) : String :=
  String.mk ('"' :: ((s.data.map jsonEscapeChar).flatten ++ ['"']))

/-- Python `json.dumps` on a string-to-string dict with the default
separators (`", "` between items, `": "` after each key). -/
def jsonDumps (d : List (String × String)) : String :=
  "\x7b" ++ String.intercalate ", "
      (d.map (fun kv => jsonStr kv.1 ++ ": " ++ jsonStr kv.2)) ++ "\x7d"

/-- One row of the SQLite `events` table, minus the auto-increment `id`
(lines 20–29); the insert on line 63 supplies exactly these seven values. -/
structure EventRow where
  ts : String
  src_ip : String
  xff : String
  method : String
  path : String
  headers : String
  body : String
deriving DecidableEq

/-- The two persistent sinks: the primary SQLite table (rows in insertion
order, so a row's `id` is its position) and the fallback logfile (a list
of newline-delimited lines, without the trailing newline). -/
structure SinkState where
  db : List EventRow
  log : List String
deriving DecidableEq

/-- The fallback logfile line written by `save_event` on primary failure
(line 71): `ts | src_ip | xff | method path | headers:<json> | body:<excerpt>`. -/
def fallbackLine (ts src xff m p headersJson body : String) : String :=
  ts ++ " | " ++ src ++ " | " ++ xff ++ " | " ++ m ++ " " ++ p ++
    " | headers:" ++ headersJson ++ " | body:" ++ body

/-- The body of `save_event` (lines 33–77).  `dbOk` says whether the
SQLite connect/insert/commit succeeds; `fbOk` says whether the fallback
append succeeds.  On primary success the row is inserted; on primary
failure the fallback line is attempted, and its own failure is swallowed
(`except: pass`); field normalization failures are handled inside
`headersDict` and `bodyText`.  The function is total: no branch escapes. -/
def save_event (dbOk fbOk : Bool) (ts src xff m p : String)
    (headers : RawHeaders) (body : RawBody) (st : SinkState) : SinkState :=
  let hj := jsonDumps (headersDict headers)
  let bt := bodyText body
  if dbOk then
    SinkState.mk (st.db ++ [EventRow.mk ts src xff m p hj bt]) st.log
  else if fbOk then
    SinkState.mk st.db (st.log ++ [fallbackLine ts src xff m p hj bt])
  else st

/-- One uploaded file as exposed by `request.files`: the client-supplied
filename (absent when the part carries none) and the payload bytes. -/
structure UploadFile where
  filename : Option String
  content : List Nat
deriving DecidableEq

/-- An inbound HTTP request as the handlers observe it: `rawBody` is what
`request.get_data()` returns, `form` the urlencoded form fields, `files`
the multipart file fields. -/
structure Request where
  method : String
  path : String
  remote_addr : Option String
  headers : RawHeaders
  rawBody : List Nat
  form : List (String × String)
  files : List (String × UploadFile)

/-- Environment of one request: success flags for each fallible external
operation and the values the clock supplies.  `dbOk` — the SQLite insert;
`fbOk` — the fallback-log append in `save_event`; `extractOk` — reading
the request attributes in the pre-request hook (e.g. `get_data`);
`mkdirOk` — `os.makedirs(QUARANTINE_DIR, exist_ok=True)` on line 142,
which sits outside the handler's `try`, so its failure escapes the
handler; `saveOk` — `file.save` in the upload handler; `noteOk` — the
note append in the upload handler; `ts` — the ISO capture timestamp;
`uploadTs` — the ISO timestamp of the upload note; `now` —
`int(time.time())`. -/
structure Env where
  dbOk : Bool
  fbOk : Bool
  extractOk : Bool
  mkdirOk : Bool
  saveOk : Bool
  noteOk : Bool
  ts : String
  uploadTs : String
  now : Nat

/-- Python `x or d` on an optional string: the default replaces both an
absent value and the empty (falsy) string. -/
def pyOrStr : Option String → String → String
  | none, d => d
  | some s, d => if s = "" then d else s

/-- Python `str()` of an optional form value: an absent field prints as
`"None"` inside an f-string. -/
def pyShowOpt : Option String → String
  | none => "None"
  | some s => s

/-- The `request.headers.get("X-Forwarded-For", "")` lookup in the
pre-request hook (line 98); `none` means the lookup raised. -/
def extractXff : RawHeaders → Option String
  | RawHeaders.mk es => some (hget es "X-Forwarded-For" "")
  | RawHeaders.malformed => none

/-- The `@app.before_request` hook `log_request` (lines 94–110): extract
the fields (each extraction guarded — a failure lands in the `except`
branch, which only logs and keeps the state unchanged), cap the body at
2000 bytes, and call `save_event`.  Total: no branch escapes. -/
def log_request (env : Env) (req : Request) (st : SinkState) : SinkState :=
  if env.extractOk then
    match extractXff req.headers with
    | some xff =>
        save_event env.dbOk env.fbOk env.ts (pyOrStr req.remote_addr "unknown")
          xff req.method req.path req.headers
          (RawBody.bytes (req.rawBody.take 2000)) st
    | none => st
  else st

/-- Character class kept by `secure_filename`'s regular expression
(ASCII letters, digits, underscore, dot, hyphen). -/
def isAllowedFilenameChar (c : Char) : Bool :=
  ('A' ≤ c && c ≤ 'Z') || ('a' ≤ c && c ≤ 'z') || ('0' ≤ c && c ≤ '9') ||
    c = '_' || c = '.' || c = '-'

/-- Python `str.split()` whitespace. -/
def isPySpace (c : Char) : Bool :=
  c = ' ' || c = '\t' || c = '\n' || c = '\r' || c = '\x0b' || c = '\x0c'

/-- Characters removed from both ends by `.strip("._")`. -/
def isDotUnd (c : Char) : Bool := c = '.' || c = '_'

/-- Python `str.split()` with no argument: split on whitespace runs,
discarding empty pieces. -/
def pySplitWs (l : List Char) : List (List Char) :=
  (l.splitOnP isPySpace).filter (fun w => w ≠ [])

/-- Python `str.strip("._")`: drop leading and trailing dots and
underscores. -/
def stripDotUnd (l : List Char) : List Char :=
  ((l.dropWhile isDotUnd).reverse.dropWhile isDotUnd).reverse

/-- `werkzeug.utils.secure_filename` on POSIX: NFKD-normalize and encode
to ASCII with `ignore` (modelled as dropping non-ASCII code points, exact
for characters without compatibility decompositions), replace `os.sep`
(`"/"`; `altsep` is absent) by a space, join the whitespace-split pieces
with `"_"`, delete every character outside `[A-Za-z0-9_.-]`, and strip
leading/trailing `"._"`.  The Windows device-name branch is dead on
POSIX. -/
def secure_filename (l : List Char) : List Char :=
  let ascii := l.filter (fun c => c.toNat < 0x80)
  let seps := ascii.map (fun c => if c = '/' then ' ' else c)
  let joined := List.intercalate ['_'] (pySplitWs seps)
  stripDotUnd (joined.filter isAllowedFilenameChar)

/-- The sanitized base name computed on line 141:
`secure_filename(file.filename or "upload")`. -/
def sanitizedName (filename : Option String) : List Char :=
  secure_filename (pyOrStr filename "upload").data

/-- The quarantine file name `f"{int(time.time())}_{fname}"` (line 143). -/
def storedFileName (now : Nat) (filename : Option String) : List Char :=
  natChars now ++ '_' :: sanitizedName filename

/-- The destination `os.path.join(QUARANTINE_DIR, ...)` (line 143). -/
def storedPath (now : Nat) (filename : Option String) : String :=
  QUARANTINE_DIR ++ "/" ++ String.mk (storedFileName now filename)

/-- The note line appended to the logfile after a successful save
(line 148). -/
def uploadNoteLine (uploadTs path : String) : String :=
  uploadTs ++ " | uploaded_file_saved: " ++ path

/-- Truthiness of a `werkzeug` `FileStorage`: `bool(file.filename)`, so a
file with an absent or empty filename is falsy. -/
def fileBool (f : UploadFile) : Bool :=
  match f.filename with
  | none => false
  | some s => s ≠ ""

/-- Full observable state: the two sinks plus the quarantine directory
(stored path paired with payload, in creation order). -/
structure FsState where
  sinks : SinkState
  quarantine : List (String × List Nat)
deriving DecidableEq

/-- Body of the framework's default 500 error page (werkzeug's
`InternalServerError`, `debug=False`), sent when an exception escapes a
handler. -/
def FRAMEWORK_500_PAGE : String :=
  "<!doctype html>\n<html lang=en>\n<title>500 Internal Server Error</title>\n<h1>Internal Server Error</h1>\n<p>The server encountered an internal error and was unable to complete your request. Either the server is overloaded or there is an error in the application.</p>\n"

/-- The `/upload` POST handler (lines 136–152).  `files.get("file")` is a
lookup; a falsy result skips the store.  On a truthy file the handler
first runs `os.makedirs` (line 142) outside the `try`: its failure
(governed by `env.mkdirOk`) raises out of the handler, the `Except.error`
result, carrying the unchanged state.  Inside the `try`: `file.save`
(governed by `env.saveOk`), then the note append (governed by
`env.noteOk`); any failure there is caught and answered with
`("Failed", 500)` — after a successful save the stored file stays in
quarantine.  Falling through returns `("OK", 200)`. -/
def upload (env : Env) (files : List (String × UploadFile)) (st : FsState) :
    Except FsState ((String × Nat) × FsState) :=
  match files.lookup "file" with
  | none => Except.ok (("OK", 200), st)
  | some f =>
    if fileBool f then
      if env.mkdirOk then
        let path := storedPath env.now f.filename
        if env.saveOk then
          if env.noteOk then
            Except.ok (("OK", 200),
              FsState.mk
                (SinkState.mk st.sinks.db
                  (st.sinks.log ++ [uploadNoteLine env.uploadTs path]))
                (st.quarantine ++ [(path, f.content)]))
          else
            Except.ok (("Failed", 500),
              FsState.mk st.sinks (st.quarantine ++ [(path, f.content)]))
        else Except.ok (("Failed", 500), st)
      else Except.error st
    else Except.ok (("OK", 200), st)

/-- Framework-level dispatch of the upload handler: a normal return
passes through; an exception that escaped the handler becomes the
generic 500 page. -/
def uploadDispatch (env : Env) (files : List (String × UploadFile))
    (st : FsState) : (String × Nat) × FsState :=
  match upload env files st with
  | Except.ok r => r
  | Except.error s => ((FRAMEWORK_500_PAGE, 500), s)

/-- The `GENERIC_PAGE` template (line 91). -/
def GENERIC_PAGE : String := "<h1>Welcome</h1><p>This server is under maintenance.</p>"

/-- The `ADMIN_PAGE` template (lines 80–89); the triple-quoted literal
starts and ends with a newline. -/
def ADMIN_PAGE : String :=
  "\n<!doctype html>\n<title>Admin Panel</title>\n<h2>Admin Login</h2>\n<form method=\"post\" action=\"/admin/login\">\n  <input name=\"username\" placeholder=\"username\"/><br/>\n  <input name=\"password\" placeholder=\"password\" type=\"password\"/><br/>\n  <button type=\"submit\">Login</button>\n</form>\n"

/-- Body of the `/api/v1/data` response, `json.dumps({'error': 'not_found'})`
(line 134). -/
def API_NOT_FOUND : String := "\x7b\"error\": \"not_found\"\x7d"

/-- The `/admin/login` handler (lines 121–129): GET shows the form; POST
reads `username` from the form (an absent field prints as `None`) and
answers 401 with the echo message.  The `password` field is read but
never compared to anything. -/
def admin_login (method : String) (form : List (String × String)) :
    String × Nat :=
  if method = "GET" then (ADMIN_PAGE, 200)
  else ("<p>Login failed for " ++ pyShowOpt (form.lookup "username") ++ "</p>", 401)

/-- Route dispatch over the five registered rules, with the framework's
default answers for an unknown path (404) or a method a rule does not
accept (405). -/
def handleRoute (env : Env) (req : Request) (st : FsState) :
    (String × Nat) × FsState :=
  if req.path = "/" then
    if req.method = "GET" then ((GENERIC_PAGE, 200), st)
    else (("Method Not Allowed", 405), st)
  else if req.path = "/admin" then
    if req.method = "GET" then ((ADMIN_PAGE, 200), st)
    else (("Method Not Allowed", 405), st)
  else if req.path = "/admin/login" then
    if req.method = "GET" || req.method = "POST" then
      (admin_login req.method req.form, st)
    else (("Method Not Allowed", 405), st)
  else if req.path = "/api/v1/data" then
    if req.method = "GET" || req.method = "POST" then ((API_NOT_FOUND, 404), st)
    else (("Method Not Allowed", 405), st)
  else if req.path = "/upload" then
    if req.method = "POST" then uploadDispatch env req.files st
    else (("Method Not Allowed", 405), st)
  else (("Not Found", 404), st)

/-- One full request: the `before_request` capture hook runs first and
only updates the sinks; the matched handler then produces the response. -/
def processRequest (env : Env) (req : Request) (st : FsState) :
    (String × Nat) × FsState :=
  let st1 := FsState.mk (log_request env req st.sinks) st.quarantine
  handleRoute env req st1

/-! Concrete fixtures used by witness statements. -/

/-- Environment where every external operation succeeds. -/
def envA : Env := Env.mk true true true true true true "2024-01-01T00:00:00Z" "2024-01-01T00:00:00+00:00" 5

/-- Environment where the upload note append fails but everything else
succeeds. -/
def envB : Env := Env.mk true true true true true false "2024-01-01T00:00:00Z" "2024-01-01T00:00:00+00:00" 5

/-- Environment where `os.makedirs` fails but everything else succeeds. -/
def envC : Env := Env.mk true true true false true true "2024-01-01T00:00:00Z" "2024-01-01T00:00:00+00:00" 5

/-- A small uploaded file. -/
def fileA : UploadFile := UploadFile.mk (some "a.txt") [104, 105]

/-- Empty sinks and quarantine. -/
def stA : FsState := FsState.mk (SinkState.mk [] []) []

/-- A login form submitting `username=admin&password=x`. -/
def formA : List (String × String) := [("username", "admin"), ("password", "x")]

/-- The same form with a different password. -/
def formB : List (String × String) := [("username", "admin"), ("password", "y")]

/-! Helper lemmas. -/

/-- Membership survives `stripDotUnd` (it only removes elements). -/
lemma mem_of_mem_stripDotUnd {l : List Char} {c : Char}
    (h : c ∈ stripDotUnd l) : c ∈ l := by
  unfold stripDotUnd at h
  rw [List.mem_reverse] at h
  have h1 : c ∈ (l.dropWhile isDotUnd).reverse :=
    (List.dropWhile_suffix isDotUnd).subset h
  rw [List.mem_reverse] at h1
  exact (List.dropWhile_suffix isDotUnd).subset h1

/-- Every character of a `secure_filename` result lies in the kept class
`[A-Za-z0-9_.-]`. -/
lemma secure_filename_allowed {l : List Char} {c : Char}
    (h : c ∈ secure_filename l) : isAllowedFilenameChar c = true := by
  unfold secure_filename at h
  exact List.of_mem_filter (mem_of_mem_stripDotUnd h)

/-- A character of the kept class is not a path separator. -/
lemma allowed_char_safe {c : Char} (h : isAllowedFilenameChar c = true) :
    c ≠ '/' ∧ c ≠ '\\' := by
  constructor <;> rintro rfl <;> exact absurd h (by decide)

/-- Decimal digit characters are never path separators. -/
lemma digitChar_safe (d : Nat) : digitChar d ≠ '/' ∧ digitChar d ≠ '\\' := by
  unfold digitChar
  split_ifs <;> exact ⟨by decide, by decide⟩

/-- Characters produced by `natCharsAux` come from the accumulator or are
digit characters. -/
lemma mem_natCharsAux {fuel n : Nat} {acc : List Char} {c : Char}
    (h : c ∈ natCharsAux fuel n acc) : c ∈ acc ∨ ∃ d, c = digitChar d := by
  induction fuel generalizing n acc with
  | zero => exact Or.inl h
  | succ fuel ih =>
    unfold natCharsAux at h
    split at h
    · exact Or.inl h
    · rcases ih h with h1 | h1
      · rcases List.mem_cons.mp h1 with h2 | h2
        · exact Or.inr ⟨_, h2⟩
        · exact Or.inl h2
      · exact Or.inr h1

/-- Characters of a decimal rendering are never path separators. -/
lemma natChars_safe {n : Nat} {c : Char} (h : c ∈ natChars n) :
    c ≠ '/' ∧ c ≠ '\\' := by
  unfold natChars at h
  split at h
  · rw [List.mem_singleton] at h
    subst h
    exact ⟨by decide, by decide⟩
  · rcases mem_natCharsAux h with h1 | h1
    · exact absurd h1 (List.not_mem_nil c)
    · rcases h1 with ⟨d, rfl⟩
      exact digitChar_safe d

/-- The dispatched `/upload` response does not depend on the incoming
sink/quarantine state. -/
lemma upload_fst_eq (env : Env) (files : List (String × UploadFile))
    (st st' : FsState) :
    (uploadDispatch env files st).1 = (uploadDispatch env files st').1 := by
  unfold uploadDispatch upload
  cases files.lookup "file" with
  | none => rfl
  | some f =>
    cases hm : env.mkdirOk <;> cases hs : env.saveOk <;> cases hn : env.noteOk <;>
      by_cases hb : fileBool f <;> simp [hm, hs, hn, hb]

/-- No handler's response depends on the incoming sink/quarantine state. -/
lemma handleRoute_fst_eq (env : Env) (req : Request) (st st' : FsState) :
    (handleRoute env req st).1 = (handleRoute env req st').1 := by
  unfold handleRoute
  repeat' split
  all_goals first
    | rfl
    | exact upload_fst_eq env req.files st st'

/-! Claim theorems. -/

/-- C1: for every request, environment (including failing extraction,
failing primary insert and failing fallback append) and starting state,
the capture hook never escapes and the response produced by the full
pipeline equals the response the matched bait-surface handler produces
with capture removed. -/
theorem c1_capture_preserves_response (env : Env) (req : Request) (st : FsState) :
    (processRequest env req st).1 = (handleRoute env req st).1 := by
  unfold processRequest
  exact handleRoute_fst_eq env req _ st

/-- C2 counterexample: when the primary insert fails and the fallback
append itself also fails, the primary-sink insert has failed yet no line
is appended to the fallback log, refuting "appended if and only if the
primary-sink insert fails" at this concrete input. -/
theorem c2_counterexample :
    ¬ ∃ line, (save_event false false "2024-01-01T00:00:00Z" "203.0.113.9" ""
        "GET" "/" (RawHeaders.mk []) (RawBody.bytes [])
        (SinkState.mk [] [])).log = [line] := by
  rintro ⟨line, h⟩
  simp [save_event] at h

/-- C2 (amended): on primary success the row is inserted and the fallback
log is unchanged; on primary failure with a succeeding fallback append
exactly the formatted line is appended, carrying the same seven field
values as the insert would have (no id); on primary failure with a failing
fallback append the failure is swallowed and both sinks are unchanged. -/
theorem c2_fallback_behavior (fb : Bool) (ts src xff m p : String)
    (hd : RawHeaders) (b : RawBody) (st : SinkState) :
    save_event true fb ts src xff m p hd b st =
      SinkState.mk
        (st.db ++ [EventRow.mk ts src xff m p (jsonDumps (headersDict hd)) (bodyText b)])
        st.log ∧
    save_event false true ts src xff m p hd b st =
      SinkState.mk st.db
        (st.log ++ [fallbackLine ts src xff m p (jsonDumps (headersDict hd)) (bodyText b)]) ∧
    save_event false false ts src xff m p hd b st = st :=
  ⟨rfl, rfl, rfl⟩

/-- C3 counterexample: on a malformed headers object the summary is the
empty dict, not a dict with the four recognized keys, refuting the claim
for malformed input. -/
theorem c3_counterexample :
    headersDict RawHeaders.malformed = [] ∧
    (headersDict RawHeaders.malformed).map Prod.fst ≠
      ["User-Agent", "X-Forwarded-For", "Content-Type", "Accept"] := by
  exact ⟨rfl, by decide⟩

/-- C3 (amended): on every well-formed headers mapping the summary holds
exactly the four recognized keys in order, each mapped to the header's
value when present and to `""` when absent; a malformed headers object
yields the empty summary instead. -/
theorem c3_header_summary (es : List (String × String)) :
    headersDict (RawHeaders.mk es) =
      [("User-Agent", hget es "User-Agent" ""),
       ("X-Forwarded-For", hget es "X-Forwarded-For" ""),
       ("Content-Type", hget es "Content-Type" ""),
       ("Accept", hget es "Accept" "")] ∧
    (headersDict (RawHeaders.mk es)).map Prod.fst =
      ["User-Agent", "X-Forwarded-For", "Content-Type", "Accept"] ∧
    (∀ k d, hget es k d = (es.lookup k).getD d) ∧
    headersDict RawHeaders.malformed = [] := by
  refine ⟨rfl, rfl, fun k d => ?_, rfl⟩
  unfold hget
  cases es.lookup k <;> rfl

/-- C4: the stored body excerpt never exceeds 2000 characters, byte
bodies are decoded as UTF-8 with replacement before truncation, other
values are stringified before truncation. -/
theorem c4_body_excerpt (b : RawBody) (bs : List Nat) (s : String) :
    (bodyText b).length ≤ 2000 ∧
    bodyText (RawBody.bytes bs) = String.mk ((utf8DecodeReplace bs).take 2000) ∧
    bodyText (RawBody.text s) = String.mk (s.data.take 2000) := by
  refine ⟨?_, rfl, rfl⟩
  cases b with
  | bytes bs' =>
    show ((utf8DecodeReplace bs').take 2000).length ≤ 2000
    rw [List.length_take]
    exact min_le_left _ _
  | text s' =>
    show (s'.data.take 2000).length ≤ 2000
    rw [List.length_take]
    exact min_le_left _ _
  | strFails => exact Nat.zero_le 2000

/-- C5 counterexample: the submitted name `"??"` is nonempty and
sanitization strips every character from it, yet the base name used by
the handler is the empty string, not `"upload"`. -/
theorem c5_counterexample :
    "??" ≠ "" ∧ secure_filename "??".data = [] ∧
    sanitizedName (some "??") ≠ "upload".data := by decide

/-- C5 (amended): the sanitized base name is `"upload"` exactly when the
submitted name is missing or empty (the `or "upload"` default); a
nonempty submitted name is passed to `secure_filename` unchanged, so a
nonempty name whose characters are all stripped yields the empty base
name, not `"upload"`. -/
theorem c5_sanitized_name (fn : String) (h : fn ≠ "") :
    sanitizedName none = "upload".data ∧
    sanitizedName (some "") = "upload".data ∧
    sanitizedName (some fn) = secure_filename fn.data := by
  refine ⟨by decide, by decide, ?_⟩
  unfold sanitizedName pyOrStr
  simp [h]

/-- C5 witness: a concrete nonempty filename goes through
`secure_filename` directly. -/
theorem c5_witness :
    sanitizedName (some "a.txt") = secure_filename "a.txt".data :=
  (c5_sanitized_name "a.txt" (by decide)).2.2

/-- C6: the quarantine file name is `<unix_seconds>_<sanitized_name>` and
contains no path-separator character, so the stored path stays inside the
quarantine directory. -/
theorem c6_stored_filename_safe (now : Nat) (fn : Option String) :
    storedFileName now fn = natChars now ++ '_' :: sanitizedName fn ∧
    ∀ c ∈ storedFileName now fn, c ≠ '/' ∧ c ≠ '\\' := by
  refine ⟨rfl, fun c hc => ?_⟩
  unfold storedFileName at hc
  rcases List.mem_append.mp hc with h | h
  · exact natChars_safe h
  · rcases List.mem_cons.mp h with rfl | h
    · exact ⟨by decide, by decide⟩
    · exact allowed_char_safe (secure_filename_allowed h)

/-- C7 counterexample: `os.makedirs` on line 142 sits outside the
handler's `try`, so when it fails on a POST carrying a file the exception
escapes the handler and the framework answers its generic 500 page — an
I/O failure whose response body is neither `"Failed"` nor `"OK"`,
refuting "returns body Failed with status 500 on any I/O failure". -/
theorem c7_counterexample :
    upload envC [("file", fileA)] stA = Except.error stA ∧
    uploadDispatch envC [("file", fileA)] stA = ((FRAMEWORK_500_PAGE, 500), stA) ∧
    FRAMEWORK_500_PAGE ≠ "Failed" ∧ FRAMEWORK_500_PAGE ≠ "OK" := by
  refine ⟨rfl, rfl, by decide, by decide⟩

/-- C7 (amended): on a POST to `/upload` carrying a (truthy) file, when
the quarantine-directory creation succeeds the handler answers
`("OK", 200)` exactly when both the save and the note append succeed and
`("Failed", 500)` when either fails — the body then one of the two fixed
literals, so no error detail can appear in it; when the directory
creation itself fails the exception escapes the handler and the framework
answers its generic 500 page, whose body is not `"Failed"`. -/
theorem c7_upload_response (env : Env) (files : List (String × UploadFile))
    (st : FsState) (f : UploadFile)
    (hf : files.lookup "file" = some f) (hb : fileBool f = true) :
    (env.mkdirOk = true →
      ((uploadDispatch env files st).1.1 = "OK" ∨
        (uploadDispatch env files st).1.1 = "Failed") ∧
      (env.saveOk = true → env.noteOk = true →
        (uploadDispatch env files st).1 = ("OK", 200)) ∧
      (env.saveOk = false ∨ env.noteOk = false →
        (uploadDispatch env files st).1 = ("Failed", 500))) ∧
    (env.mkdirOk = false →
      upload env files st = Except.error st ∧
      uploadDispatch env files st = ((FRAMEWORK_500_PAGE, 500), st)) := by
  cases hm : env.mkdirOk <;> cases hs : env.saveOk <;> cases hn : env.noteOk <;>
    simp [upload, uploadDispatch, hf, hb, hm, hs, hn]

/-- C7 witness: with a concrete file and an all-success environment the
theorem applies and its hypotheses are discharged by evaluation. -/
theorem c7_witness :
    (envA.mkdirOk = true →
      ((uploadDispatch envA [("file", fileA)] stA).1.1 = "OK" ∨
        (uploadDispatch envA [("file", fileA)] stA).1.1 = "Failed") ∧
      (envA.saveOk = true → envA.noteOk = true →
        (uploadDispatch envA [("file", fileA)] stA).1 = ("OK", 200)) ∧
      (envA.saveOk = false ∨ envA.noteOk = false →
        (uploadDispatch envA [("file", fileA)] stA).1 = ("Failed", 500))) ∧
    (envA.mkdirOk = false →
      upload envA [("file", fileA)] stA = Except.error stA ∧
      uploadDispatch envA [("file", fileA)] stA = ((FRAMEWORK_500_PAGE, 500), stA)) :=
  c7_upload_response envA [("file", fileA)] stA fileA (by decide) (by decide)

/-- C8: a POST to `/admin/login` with a submitted username answers 401
with the fixed echo body, and the response is a function of the username
field alone — two forms agreeing on `username` (whatever their passwords)
get identical responses, so no credential comparison can influence the
result. -/
theorem c8_admin_login (form form2 : List (String × String)) (u : String)
    (hu : form.lookup "username" = some u)
    (hsame : form2.lookup "username" = form.lookup "username") :
    (admin_login "POST" form).2 = 401 ∧
    (admin_login "POST" form).1 = "<p>Login failed for " ++ u ++ "</p>" ∧
    admin_login "POST" form2 = admin_login "POST" form := by
  unfold admin_login
  simp [hu, hsame, pyShowOpt]

/-- C8 witness: `username=admin&password=x` yields 401 and the body
`<p>Login failed for admin</p>`; changing the password to `y` leaves the
response unchanged. -/
theorem c8_witness :
    (admin_login "POST" formA).2 = 401 ∧
    (admin_login "POST" formA).1 = "<p>Login failed for " ++ "admin" ++ "</p>" ∧
    admin_login "POST" formB = admin_login "POST" formA :=
  c8_admin_login formA formB "admin" (by decide) (by decide)

/-- C9: when the directory creation and `file.save` succeed but the note
append fails, the handler still answers `("Failed", 500)` (a normal
return, no escaping exception) while the saved file remains in the
quarantine directory (and the log gains no note line).  The scenario
presupposes the save happened, hence `os.makedirs` succeeded. -/
theorem c9_upload_partial (env : Env) (files : List (String × UploadFile))
    (st : FsState) (f : UploadFile)
    (hf : files.lookup "file" = some f) (hb : fileBool f = true)
    (hm : env.mkdirOk = true) (hs : env.saveOk = true) (hn : env.noteOk = false) :
    upload env files st =
      Except.ok (("Failed", 500),
        FsState.mk st.sinks
          (st.quarantine ++ [(storedPath env.now f.filename, f.content)])) := by
  simp [upload, hf, hb, hm, hs, hn]

/-- C9 witness: a concrete upload whose note append fails is refused with
500 yet its payload sits in quarantine. -/
theorem c9_witness :
    upload envB [("file", fileA)] stA =
      Except.ok (("Failed", 500),
        FsState.mk stA.sinks
          (stA.quarantine ++ [(storedPath envB.now fileA.filename, fileA.content)])) :=
  c9_upload_partial envB [("file", fileA)] stA fileA (by decide) (by decide) rfl rfl rfl

/-- C10: a POST to `/upload` whose multipart form has no `file` field is
answered `("OK", 200)` with the file-system state untouched — the `if
file:` guard is falsy, so neither `os.makedirs`, nor the save, nor the
note append is reached, whatever the environment flags. -/
theorem c10_upload_no_file (env : Env) (files : List (String × UploadFile))
    (st : FsState) (h : files.lookup "file" = none) :
    upload env files st = Except.ok (("OK", 200), st) ∧
    uploadDispatch env files st = (("OK", 200), st) := by
  simp [upload, uploadDispatch, h]

/-- C10 witness: an upload request with an empty multipart form, in an
environment where the directory creation would fail if reached. -/
theorem c10_witness :
    upload envC [] stA = Except.ok (("OK", 200), stA) ∧
    uploadDispatch envC [] stA = (("OK", 200), stA) :=
  c10_upload_no_file envC [] stA rfl

end Honeypot
